import Mathlib

/-!
Shallow embedding of the nook repository's core pipeline:
  - src/nook/lambda/reddit_explorer/reddit_explorer.py
    (post classification, filtering, media-URL resolution, summarization
    prompt construction, digest rendering and storage), and
  - src/nook/lambda/viewer/viewer.py
    (link extraction and external-content fetching for the chat context).

Python machine details are embedded as follows: Python `str` becomes
`String` (both are sequences of Unicode code points, so `len`/slicing
agree with `String.length`/char-list operations); Python `float` fields
compared against the literal threshold 0.7 become exact rationals
(the only property used, irreflexivity of `<` at the threshold, holds in
both representations); attributes accessed through `getattr`/`hasattr`
become `Option` fields (`none` = attribute absent); `try/except` blocks
become a `match` on an explicit outcome value that enumerates what the
external call (network, storage) did; regex scans are hand-compiled to
left-to-right scanners with the exact first-match/backtracking semantics
of the concrete patterns in the source.
-/

namespace Nook

/-- Python whitespace class used by `str.split()`, `str.lstrip()` and the
regex class `\s` (ASCII part, which is all the embedded scanners need). -/
def isPySpace (c : Char) : Bool :=
  c = ' ' || c = '\t' || c = '\n' || c = '\r' || c = '\x0b' || c = '\x0c'

/-- Python substring test `needle in hay` on code-point lists. -/
def listContainsSub : List Char → List Char → Bool
  | hay, needle =>
    needle.isPrefixOf hay ||
      match hay with
      | [] => false
      | _ :: t => listContainsSub t needle

/-- Python `needle in hay` for strings. -/
def strContainsSub (hay needle : String) : Bool :=
  listContainsSub hay.toList needle.toList

/-- Python `str.lower()` (ASCII case mapping; the source only ever
compares against the ASCII literal "megathread"). -/
def pyLower (s : String) : String :=
  String.mk (s.toList.map Char.toLower)

/-- Python slicing `s[:n]` by code points. -/
def strTake (s : String) (n : Nat) : String :=
  String.mk (s.toList.take n)

/-- Python `s[n:]` by code points. -/
def strDrop (s : String) (n : Nat) : String :=
  String.mk (s.toList.drop n)

/-- Python `str(x)` applied to an optional string, as an f-string does:
`None` prints as "None". -/
def pyStrOpt : Option String → String
  | none => "None"
  | some s => s

/-! ## Data model (reddit_explorer.py) -/

/-- The seven values of `RedditPost.type`
(reddit_explorer.py line 54). -/
inductive PostType
  | image
  | gallery
  | video
  | poll
  | crosspost
  | text
  | link
deriving DecidableEq, Repr

/-- The inner dict of `post.media["reddit_video"]`: carries an optional
"fallback_url" key (reddit_explorer.py lines 191-197). -/
structure FallbackDict where
  fallback_url : Option String
deriving DecidableEq, Repr

/-- A media descriptor dict: carries an optional "reddit_video" key. -/
structure MediaDict where
  reddit_video : Option FallbackDict
deriving DecidableEq, Repr

/-- A praw submission as consumed by reddit_explorer.py. Fields read via
`getattr(..., default)` or `hasattr` are `Option`s (`none` = attribute
absent); `has_poll_data` and `has_crosspost_parent` embed the two bare
`hasattr` tests, whose results are all the code consumes. -/
structure Submission where
  id : String
  title : String
  author_name : String
  url : String
  ups : Int
  upvote_ratio : ℚ
  selftext : String
  permalink : String
  thumbnail : String
  post_hint : Option String
  is_gallery : Option Bool
  is_video : Option Bool
  has_poll_data : Bool
  has_crosspost_parent : Bool
  is_self : Bool
  media : Option MediaDict
  secure_media : Option MediaDict
deriving DecidableEq, Repr

/-- A kept post, as built in `_retrieve_hot_posts`
(reddit_explorer.py lines 125-136). The `comments` and `summary`
fields of the Python dataclass are assigned after construction by the
orchestration loop; they are supplied separately where needed. -/
structure RedditPost where
  type : PostType
  id : String
  title : String
  url : Option String
  upvotes : Int
  text : String
  permalink : String
  thumbnail : String
deriving DecidableEq, Repr

/-- A retained comment record, as built by
`_retrieve_top_comments_of_post` (reddit_explorer.py lines 149-155). -/
structure CommentRec where
  text : String
  upvotes : Int
deriving DecidableEq, Repr

/-! ## Classification (reddit_explorer.py lines 174-189) -/

/-- Embeds `RedditExplorer.__judge_post_type`: the if/elif chain over the
raw type hints, in source order, with "link" as the final fallback. -/
def judge_post_type (s : Submission) : PostType :=
  if s.post_hint.getD "" == "image" then .image
  else if s.is_gallery.getD false then .gallery
  else if s.is_video.getD false then .video
  else if s.has_poll_data then .poll
  else if s.has_crosspost_parent then .crosspost
  else if s.is_self then .text
  else .link

/-- The spec's reading of classification: a fixed priority list of
(hint, tag) pairs, first match wins, `link` when nothing matches
(spec.md sections 3 and 4.1). Stated from the spec's words, to be
compared with `judge_post_type`. -/
def hint_priority (s : Submission) : List (Bool × PostType) :=
  [(s.post_hint.getD "" == "image", .image),
   (s.is_gallery.getD false, .gallery),
   (s.is_video.getD false, .video),
   (s.has_poll_data, .poll),
   (s.has_crosspost_parent, .crosspost),
   (s.is_self, .text)]

/-- First matching hint in priority order, `link` as fallback
(spec-side definition for the refinement claim). -/
def judge_post_type_spec (s : Submission) : PostType :=
  (((hint_priority s).find? (fun pr => pr.1)).map (fun pr => pr.2)).getD .link

/-! ## Filtering (reddit_explorer.py lines 104-137) -/

/-- Embeds the four `continue` tests of `_retrieve_hot_posts`
(lines 117-124): a post is kept iff none of them fires. The float
threshold 0.7 is the exact rational 7/10. -/
def keep_post (s : Submission) (post_type : PostType) : Bool :=
  !(s.author_name == "AutoModerator")
    && !(strContainsSub (pyLower s.title) "megathread")
    && !(decide (s.upvote_ratio < 7/10))
    && !([PostType.gallery, PostType.poll, PostType.crosspost].contains post_type)

/-- Embeds `_get_video_url` (lines 191-197): the `media` attribute is
consulted first; `secure_media` is consulted only in the `elif` branch,
i.e. only when the `media` attribute is absent. -/
def get_video_url (s : Submission) : Option String :=
  match s.media with
  | some d => d.reddit_video.bind (fun r => r.fallback_url)
  | none =>
    match s.secure_media with
    | some d => d.reddit_video.bind (fun r => r.fallback_url)
    | none => none

/-- The spec's reading of media-URL resolution (spec.md section 4.1):
take `media.reddit_video.fallback_url`, and whenever that is absent fall
back to `secure_media.reddit_video.fallback_url`; null only when both
are absent. Stated from the spec's words, to be compared with
`get_video_url`. -/
def resolve_video_url_spec (s : Submission) : Option String :=
  match s.media.bind (fun d => d.reddit_video.bind (fun r => r.fallback_url)) with
  | some u => some u
  | none => s.secure_media.bind (fun d => d.reddit_video.bind (fun r => r.fallback_url))

/-- Embeds the body of the `for post in ...hot(limit=limit)` loop of
`_retrieve_hot_posts` (lines 110-137) over an input list that models the
API's hot listing (already bounded by `limit` at the API call). -/
def retrieve_hot_posts (hot : List Submission) : List RedditPost :=
  hot.filterMap (fun s =>
    let post_type := judge_post_type s
    let url := if post_type = PostType.video then get_video_url s else some s.url
    if keep_post s post_type then
      some { type := post_type
             id := s.id
             title := s.title
             url := url
             upvotes := s.ups
             text := s.selftext
             thumbnail := s.thumbnail
             permalink := "https://www.reddit.com" ++ s.permalink }
    else none)

/-! ## Digest rendering (reddit_explorer.py lines 17-27 and 199-212) -/

/-- The `image_or_video_or_none` conditional of `_stylize_post`
(lines 203-209). -/
def media_block (post : RedditPost) : String :=
  if post.type = PostType.image then
    "![Image](" ++ pyStrOpt post.url ++ ")"
  else if post.type = PostType.video ∧ post.url ≠ none then
    "<video src=\"" ++ pyStrOpt post.url
      ++ "\" controls controls style=\"width: 100%; height: auto; max-height: 500px;\"></video>"
  else ""

/-- Embeds `_stylize_post` (lines 199-212): `_MARKDOWN_FORMAT` with the
placeholders interpolated. The post's `summary` dataclass field, set by
the orchestration loop before rendering, is passed explicitly. -/
def stylize_post (post : RedditPost) (summary : String) : String :=
  "\n# " ++ post.title
    ++ "\n\n**Upvotes**: " ++ toString post.upvotes
    ++ "\n\n" ++ media_block post
    ++ "\n\n[View on Reddit](" ++ post.permalink ++ ")\n\n"
    ++ summary ++ "\n"

/-! ## Storage (reddit_explorer.py lines 90-102) -/

/-- What the S3 `put_object` call did: succeeded, or raised a
botocore `ClientError` (the failure mode of the storage client that the
`except` clause names). -/
inductive S3PutOutcome
  | success
  | clientError (msg : String)
deriving DecidableEq, Repr

/-- Observable result of `_store_summaries`: what was uploaded (key and
body) when the put succeeded, and whether the error path printed its log
lines. The function always returns this record — the embedding of the
fact that `_store_summaries` returns normally in both branches. -/
structure StoreOutcome where
  uploaded : Option (String × String)
  errorLogged : Bool
deriving DecidableEq, Repr

/-- Embeds `_store_summaries` (lines 90-102): builds the date-keyed S3
key, joins the fragments with the fixed separator, then either records
the successful put or catches the `ClientError` and logs. -/
def store_summaries (date_str : String) (summaries : List String)
    (s3 : S3PutOutcome) : StoreOutcome :=
  let key := "reddit_explorer/" ++ date_str ++ ".md"
  let content := String.intercalate "\n---\n" summaries
  match s3 with
  | .success => { uploaded := some (key, content), errorLogged := false }
  | .clientError _ => { uploaded := none, errorLogged := true }

/-! ## Summarization prompt (reddit_explorer.py lines 157-172, 214-242) -/

/-- One comment line of `_summarize_reddit_post` (line 160). -/
def comment_line (c : CommentRec) : String :=
  toString c.upvotes ++ " upvotes: " ++ c.text

/-- The `comments_text` join of `_summarize_reddit_post`
(lines 158-163). -/
def comments_text (comments : List CommentRec) : String :=
  String.intercalate "\n" (comments.map comment_line)

/-- Python `str.expandtabs()` with tab size 8 (column resets at line
breaks), called by `inspect.cleandoc` on its input. -/
def expandTabsAux : List Char → Nat → List Char
  | [], _ => []
  | c :: rest, col =>
    if c = '\t' then
      let pad := 8 - col % 8
      List.replicate pad ' ' ++ expandTabsAux rest (col + pad)
    else if c = '\n' || c = '\r' then
      c :: expandTabsAux rest 0
    else
      c :: expandTabsAux rest (col + 1)

/-- Python `str.split("\n")`: splits at every newline, keeping empty
pieces ("" yields [""]). -/
def splitLinesAux : List Char → List Char → List String
  | [], acc => [String.mk acc.reverse]
  | c :: rest, acc =>
    if c = '\n' then String.mk acc.reverse :: splitLinesAux rest []
    else splitLinesAux rest (c :: acc)

/-- Drops trailing empty lines, as cleandoc's final `while` loops do. -/
def dropTrailingEmpties (l : List String) : List String :=
  (l.reverse.dropWhile (fun s => s = "")).reverse

/-- Embeds `inspect.cleandoc` from the Python standard library, which
`_system_instruction_format` applies to both of its f-strings: expand
tabs, split into lines, compute the minimum indentation of the non-blank
lines after the first, lstrip the first line, remove that margin from
every later line, then drop leading and trailing empty lines. -/
def cleandoc (doc : String) : String :=
  let lines := splitLinesAux (expandTabsAux doc.toList 0) []
  let margin : Option Nat :=
    lines.tail.foldl
      (fun m line =>
        let stripped := line.toList.dropWhile isPySpace
        if stripped.length = 0 then m
        else
          let indent := line.length - stripped.length
          match m with
          | none => some indent
          | some v => some (min v indent))
      none
  let processed :=
    match lines with
    | [] => []
    | first :: rest =>
      let first := String.mk (first.toList.dropWhile isPySpace)
      let rest :=
        match margin with
        | none => rest
        | some mg => rest.map (fun l => strDrop l mg)
      first :: rest
  String.intercalate "\n" ((dropTrailingEmpties processed).dropWhile (fun s => s = ""))

/-- The inner f-string of `_system_instruction_format` (lines 217-224)
before its `inspect.cleandoc` call, with the source's 12-space
indentation. -/
def raw_self_block (selftext : String) : String :=
  "\n            投稿文\n            \x27\x27\x27\n            "
    ++ selftext
    ++ "\n            \x27\x27\x27\n            "

/-- The outer f-string of `_system_instruction_format` (lines 226-241)
before its `inspect.cleandoc` call: the two `if selftext` conditionals
embed Python truthiness of the string (non-empty = truthy). -/
def raw_system_instruction (title comments selftext : String) : String :=
  "\n            以下のテキストは、Redditのあるポストのタイトルと"
    ++ (if selftext ≠ "" then "投稿文、そして" else "")
    ++ "当ポストに対する主なコメントです。\n            よく読んで、ユーザーの質問に答えてください。\n\n            タイトル\n            \x27\x27\x27\n            "
    ++ title
    ++ "\n            \x27\x27\x27\n\n            "
    ++ (if selftext ≠ "" then cleandoc (raw_self_block selftext) else "")
    ++ "\n\n            コメント\n            \x27\x27\x27\n            "
    ++ comments
    ++ "\n            \x27\x27\x27\n            "

/-- Embeds `_system_instruction_format` (lines 214-242). -/
def system_instruction_format (title comments selftext : String) : String :=
  cleandoc (raw_system_instruction title comments selftext)

/-- The outer f-string with the selftext conditionals resolved to the
empty case: what `raw_system_instruction` must equal when the selftext
is empty (no 「投稿文、そして」 marker, no self-text block). -/
def raw_system_instruction_no_self (title comments : String) : String :=
  "\n            以下のテキストは、Redditのあるポストのタイトルと"
    ++ "当ポストに対する主なコメントです。\n            よく読んで、ユーザーの質問に答えてください。\n\n            タイトル\n            \x27\x27\x27\n            "
    ++ title
    ++ "\n            \x27\x27\x27\n\n            "
    ++ "\n\n            コメント\n            \x27\x27\x27\n            "
    ++ comments
    ++ "\n            \x27\x27\x27\n            "

/-- The outer f-string with the selftext conditionals resolved to the
non-empty case: marker present and the cleaned self-text block
interpolated. -/
def raw_system_instruction_with_self (title comments selftext : String) : String :=
  "\n            以下のテキストは、Redditのあるポストのタイトルと"
    ++ "投稿文、そして"
    ++ "当ポストに対する主なコメントです。\n            よく読んで、ユーザーの質問に答えてください。\n\n            タイトル\n            \x27\x27\x27\n            "
    ++ title
    ++ "\n            \x27\x27\x27\n\n            "
    ++ cleandoc (raw_self_block selftext)
    ++ "\n\n            コメント\n            \x27\x27\x27\n            "
    ++ comments
    ++ "\n            \x27\x27\x27\n            "

/-! ## Link extraction (viewer.py lines 108-121) -/

/-- Scanner compiled from `re.findall(r"\[([^\]]+)\]\(([^)]+)\)", text)`:
at each position, a literal '[', then one-or-more non-']' characters
(captured label), ']', '(', one-or-more non-')' characters (captured
URL), ')'. A failed attempt advances one character (re.findall's
leftmost scan); a successful match resumes after its end
(non-overlapping). Backtracking cannot extend either character class
past its terminator, so greedy take-until-terminator is exact. Fuel
bounds the recursion; every step consumes at least one character, so
`length + 1` fuel is never exhausted. -/
def scanMdAux : Nat → List Char → List (String × String)
  | 0, _ => []
  | _ + 1, [] => []
  | fuel + 1, '[' :: rest =>
    let label := rest.takeWhile (fun c => c ≠ ']')
    match rest.drop label.length with
    | ']' :: '(' :: r2 =>
      if label.isEmpty then scanMdAux fuel rest
      else
        let url := r2.takeWhile (fun c => c ≠ ')')
        match r2.drop url.length with
        | ')' :: r4 =>
          if url.isEmpty then scanMdAux fuel rest
          else (String.mk label, String.mk url) :: scanMdAux fuel r4
        | _ => scanMdAux fuel rest
    | _ => scanMdAux fuel rest
  | fuel + 1, _ :: rest => scanMdAux fuel rest

/-- Character class `[^\s\)]` of the bare-URL pattern. -/
def isUrlChar (c : Char) : Bool :=
  !(isPySpace c) && c ≠ ')'

/-- Tail of a bare-URL match after its scheme: one-or-more URL
characters; returns the full match, its last character (needed by the
scan's lookbehind at the next position) and the rest. -/
def urlTail (scheme : String) (r : List Char) : Option (String × Char × List Char) :=
  let body := r.takeWhile isUrlChar
  if body.isEmpty then none
  else some (scheme ++ String.mk body, (body.getLast?).getD ' ', r.drop body.length)

/-- One match attempt of `https?://[^\s\)]+` at the current position
(the optional 's' backtracks exactly as the two ordered arms do). -/
def matchUrl : List Char → Option (String × Char × List Char)
  | 'h' :: 't' :: 't' :: 'p' :: 's' :: ':' :: '/' :: '/' :: r => urlTail "https://" r
  | 'h' :: 't' :: 't' :: 'p' :: ':' :: '/' :: '/' :: r => urlTail "http://" r
  | _ => none

/-- Scanner compiled from
`re.findall(r"(?<![\(\[])(https?://[^\s\)]+)", text)`: the negative
lookbehind blocks a match whose preceding character is '(' or '[';
`prev` threads that character, including across a match boundary. -/
def scanUrlsAux : Nat → Option Char → List Char → List String
  | 0, _, _ => []
  | _ + 1, _, [] => []
  | fuel + 1, prev, c :: rest =>
    if prev = some '(' || prev = some '[' then
      scanUrlsAux fuel (some c) rest
    else
      match matchUrl (c :: rest) with
      | some (url, lastc, r2) => url :: scanUrlsAux fuel (some lastc) r2
      | none => scanUrlsAux fuel (some c) rest

/-- The markdown pass of `extract_links` (viewer.py lines 111-117):
raw matches filtered by the two `startswith` tests on the captured
label. -/
def markdown_links_of (text : String) : List (String × String) :=
  (scanMdAux (text.length + 1) text.toList).filter
    (fun tu => !(tu.1.startsWith "[Image]") && !(tu.1.startsWith "[Video]"))

/-- The bare-URL pass of `extract_links` (viewer.py line 119). -/
def bare_urls_of (text : String) : List String :=
  scanUrlsAux (text.length + 1) none text.toList

/-- Embeds `extract_links` (viewer.py lines 108-121): markdown-pass URLs
first, then the bare-URL pass, concatenated without deduplication. -/
def extract_links (text : String) : List String :=
  (markdown_links_of text).map (fun tu => tu.2) ++ bare_urls_of text

/-! ## External content fetch (viewer.py lines 124-146) -/

/-- Python `text.split()` (no separator): maximal runs of non-whitespace
characters, empties dropped. -/
def pyWordsAux : List Char → List Char → List (List Char)
  | [], acc => if acc.isEmpty then [] else [acc.reverse]
  | c :: rest, acc =>
    if isPySpace c then
      if acc.isEmpty then pyWordsAux rest []
      else acc.reverse :: pyWordsAux rest []
    else pyWordsAux rest (c :: acc)

/-- The whitespace collapse of `fetch_url_content` (line 139):
`" ".join(text.split())`. -/
def collapse_ws (s : String) : String :=
  String.intercalate " " ((pyWordsAux s.toList []).map String.mk)

/-- The length bound of `fetch_url_content` (line 141):
`text[:1000] + "..." if len(text) > 1000 else text`. -/
def truncate_content (text : String) : String :=
  if 1000 < text.length then strTake text 1000 ++ "..." else text

/-- Exceptions the try-block of `fetch_url_content` can raise:
`requests.get` failures (connection error, timeout) and
`raise_for_status` on a 4xx/5xx response. -/
inductive FetchErr
  | requestFailure
  | httpStatus (code : Nat)
deriving DecidableEq, Repr

/-- What the network returned for the URL: the request itself failed, or
a response arrived with a status code and, after BeautifulSoup parsing,
tag stripping and `get_text(separator=" ")`, the raw visible text of the
first of {article, main, body} (`none` when no such element exists, in
which case the source's line 143 returns None without an exception). -/
inductive FetchOutcome
  | netFailure
  | response (status : Nat) (mainText : Option String)
deriving DecidableEq, Repr

/-- The try-block of `fetch_url_content` (lines 126-143) as a fallible
computation: `Except.error` marks the points where Python raises. -/
def fetchBody : FetchOutcome → Except FetchErr (Option String)
  | .netFailure => .error .requestFailure
  | .response status mainText =>
    if 400 ≤ status ∧ status < 600 then .error (.httpStatus status)
    else .ok (mainText.map (fun raw => truncate_content (collapse_ws raw)))

/-- Embeds `fetch_url_content` (lines 124-146): the body wrapped in the
`try/except Exception` that converts every raised failure to None. The
total return type `Option String` is the embedding of "never raises to
the caller". -/
def fetch_url_content (o : FetchOutcome) : Option String :=
  match fetchBody o with
  | .ok v => v
  | .error _ => none

/-! ## Concrete sample inputs used by the witnesses -/

/-- A submission whose image hint and every lower-priority hint are all
set at once. -/
def imageSub : Submission :=
  { id := "p1", title := "A picture", author_name := "alice",
    url := "https://i.redd.it/a.png", ups := 12, upvote_ratio := 9/10,
    selftext := "", permalink := "/r/pics/1", thumbnail := "https://t/a",
    post_hint := some "image", is_gallery := some true,
    is_video := some true, has_poll_data := true,
    has_crosspost_parent := true, is_self := true,
    media := none, secure_media := none }

/-- A submission carrying none of the type hints. -/
def noHintSub : Submission :=
  { id := "p2", title := "An outside page", author_name := "alice",
    url := "https://example.com/x", ups := 3, upvote_ratio := 8/10,
    selftext := "", permalink := "/r/test/2", thumbnail := "default",
    post_hint := none, is_gallery := none, is_video := none,
    has_poll_data := false, has_crosspost_parent := false,
    is_self := false, media := none, secure_media := none }

/-- A self post whose upvote ratio sits exactly on the 0.7 threshold
and which triggers no other drop condition. -/
def boundarySub : Submission :=
  { id := "b1", title := "Daily discussion", author_name := "bob",
    url := "https://reddit.com/self", ups := 5, upvote_ratio := 7/10,
    selftext := "hello", permalink := "/r/test/1", thumbnail := "self",
    post_hint := none, is_gallery := none, is_video := none,
    has_poll_data := false, has_crosspost_parent := false,
    is_self := true, media := none, secure_media := none }

/-- The post `retrieve_hot_posts` builds from `boundarySub`. -/
def boundaryPost : RedditPost :=
  { type := PostType.text, id := "b1", title := "Daily discussion",
    url := some "https://reddit.com/self", upvotes := 5, text := "hello",
    permalink := "https://www.reddit.com/r/test/1", thumbnail := "self" }

/-- A video submission whose `media` attribute is present but holds no
"reddit_video" entry, while `secure_media` does hold a fallback URL. -/
def mediaOnlySub : Submission :=
  { id := "v1", title := "A clip", author_name := "carol",
    url := "https://v.redd.it/abc", ups := 40, upvote_ratio := 9/10,
    selftext := "", permalink := "/r/videos/1", thumbnail := "https://t/v",
    post_hint := none, is_gallery := none, is_video := some true,
    has_poll_data := false, has_crosspost_parent := false,
    is_self := false,
    media := some ⟨none⟩,
    secure_media := some ⟨some ⟨some "https://v.redd.it/abc/DASH_720.mp4"⟩⟩ }

/-- A kept video post whose resolved media URL is null. -/
def videoNonePost : RedditPost :=
  { type := PostType.video, id := "v1", title := "A clip", url := none,
    upvotes := 40, text := "", thumbnail := "https://t/v",
    permalink := "https://www.reddit.com/r/videos/1" }

/-- A 1001-character text, one character past the truncation bound. -/
def longText : String :=
  String.mk (List.replicate 1001 'a')

/-! ## Theorems -/

/-- C1: classification is a total function of the raw type hints,
evaluated in the fixed priority order image-hint > gallery > video >
poll > crosspost > self-text > link with first match winning
(`judge_post_type` agrees with the spec's first-match priority list);
a submission with post_hint = "image" is classified image regardless of
all other hint fields, and a submission matching no hint is classified
link. -/
theorem c1_classification_priority (s : Submission) :
    judge_post_type s = judge_post_type_spec s
    ∧ (s.post_hint.getD "" = "image" → judge_post_type s = PostType.image)
    ∧ (s.post_hint.getD "" ≠ "image" → s.is_gallery.getD false = false →
        s.is_video.getD false = false → s.has_poll_data = false →
        s.has_crosspost_parent = false → s.is_self = false →
        judge_post_type s = PostType.link) := by
  refine ⟨?_, ?_, ?_⟩
  · unfold judge_post_type judge_post_type_spec hint_priority
    cases h1 : (s.post_hint.getD "" == "image") <;>
      cases h2 : s.is_gallery.getD false <;>
      cases h3 : s.is_video.getD false <;>
      cases h4 : s.has_poll_data <;>
      cases h5 : s.has_crosspost_parent <;>
      cases h6 : s.is_self <;>
      simp [h1, h2, h3, h4, h5, h6, List.find?]
  · intro h
    simp [judge_post_type, h]
  · intro h1 h2 h3 h4 h5 h6
    simp [judge_post_type, h1, h2, h3, h4, h5, h6]

/-- C1 witness: the classifier at a submission with every hint set at
once returns image, and at a hint-free submission returns link. -/
theorem c1_classification_priority_witness :
    judge_post_type imageSub = PostType.image
    ∧ judge_post_type noHintSub = PostType.link :=
  ⟨(c1_classification_priority imageSub).2.1 rfl,
   (c1_classification_priority noHintSub).2.2 (by decide) rfl rfl rfl rfl rfl⟩

/-- C2: on the input "See [Image](http://x/img.png) and http://y/page"
the code returns BOTH URLs, not just the bare one: the regex captures
the markdown label without its surrounding brackets, so the exclusion
test `label.startswith("[Image]")` can never fire and the image-labeled
link is kept, contrary to the claim, to viewer.py's own inline comment
and to the spec. -/
theorem c2_extract_links_failing_input :
    extract_links "See [Image](http://x/img.png) and http://y/page"
      = ["http://x/img.png", "http://y/page"]
    ∧ extract_links "See [Image](http://x/img.png) and http://y/page"
        ≠ ["http://y/page"] := by
  exact ⟨by decide, by decide⟩

/-- C3: a submission whose upvote ratio equals the 0.7 threshold exactly
is retained (the drop test is strictly-below), assuming no other drop
condition holds. -/
theorem c3_ratio_boundary (s : Submission)
    (hr : s.upvote_ratio = 7/10)
    (ha : s.author_name ≠ "AutoModerator")
    (hm : strContainsSub (pyLower s.title) "megathread" = false)
    (ht : judge_post_type s ∉ [PostType.gallery, PostType.poll, PostType.crosspost]) :
    keep_post s (judge_post_type s) = true
    ∧ (retrieve_hot_posts [s]).length = 1 := by
  have hkeep : keep_post s (judge_post_type s) = true := by
    simp [keep_post, hr, hm, ha]
    simpa using ht
  refine ⟨hkeep, ?_⟩
  simp [retrieve_hot_posts, hkeep]

/-- C3 witness: a concrete self post with upvote ratio exactly 7/10 and
no other drop condition survives the filter. -/
theorem c3_ratio_boundary_witness :
    keep_post boundarySub (judge_post_type boundarySub) = true
    ∧ (retrieve_hot_posts [boundarySub]).length = 1 :=
  c3_ratio_boundary boundarySub rfl (by decide) (by decide) (by decide)

/-- C4: link extraction returns the filtered markdown-pass URLs first,
then the bare-URL pass, concatenated without deduplication; on
"[Guide](http://a) http://a" both occurrences of http://a come back. -/
theorem c4_extraction_order :
    (∀ t : String,
        extract_links t = (markdown_links_of t).map (fun tu => tu.2) ++ bare_urls_of t)
    ∧ extract_links "[Guide](http://a) http://a" = ["http://a", "http://a"]
    ∧ extract_links "[Guide](http://a) http://a" ≠ ["http://a"] :=
  ⟨fun _ => rfl, by decide, by decide⟩

/-- C5: the external-content fetch never raises: whenever its try-block
raises (network failure or an HTTP error status), the except clause
yields None, and the embedding's total return type carries "no
exception escapes" for every outcome. -/
theorem c5_fetch_absorbs_failures (o : FetchOutcome) (e : FetchErr)
    (h : fetchBody o = Except.error e) :
    fetch_url_content o = none := by
  simp [fetch_url_content, h]

/-- C5 witness: a failed request concretely fetches to None. -/
theorem c5_fetch_absorbs_failures_witness :
    fetch_url_content FetchOutcome.netFailure = none :=
  c5_fetch_absorbs_failures FetchOutcome.netFailure FetchErr.requestFailure rfl

/-- C6: on a successfully fetched page, when the whitespace-collapsed
text exceeds 1000 characters the result is exactly its first 1000
characters with the "..." marker appended, and when it is at most 1000
characters it is returned unmodified with no marker. -/
theorem c6_truncation (status : Nat) (raw : String) (hs : status < 400) :
    (1000 < (collapse_ws raw).length →
      fetch_url_content (FetchOutcome.response status (some raw))
        = some (strTake (collapse_ws raw) 1000 ++ "..."))
    ∧ ((collapse_ws raw).length ≤ 1000 →
      fetch_url_content (FetchOutcome.response status (some raw))
        = some (collapse_ws raw)) := by
  have hcond : ¬(400 ≤ status ∧ status < 600) := by
    rintro ⟨h1, -⟩
    exact absurd hs (not_lt.mpr h1)
  constructor
  · intro hlen
    simp [fetch_url_content, fetchBody, hcond, truncate_content, hlen]
  · intro hlen
    simp [fetch_url_content, fetchBody, hcond, truncate_content, not_lt.mpr hlen]

set_option maxRecDepth 10000 in
/-- C6 witness: a short page comes back whole with no marker; a
1001-character page comes back as its first 1000 characters plus the
marker. -/
theorem c6_truncation_witness :
    fetch_url_content (FetchOutcome.response 200 (some "Hello   world"))
      = some "Hello world"
    ∧ fetch_url_content (FetchOutcome.response 200 (some longText))
      = some (strTake longText 1000 ++ "...") := by
  constructor
  · exact ((c6_truncation 200 "Hello   world" (by decide)).2 (by decide)).trans (by decide)
  · have hc : collapse_ws longText = longText := by decide
    have h := (c6_truncation 200 longText (by decide)).1 (by rw [hc]; decide)
    rw [hc] at h
    exact h

/-- C7 counterexample: a video submission whose `media` attribute is
present but carries no reddit_video entry, while `secure_media` does
carry a fallback URL. The code resolves no URL at all (the `elif` never
runs once `media` exists), whereas the claim's "fall back when the
first is absent" resolution yields the secure-media URL. -/
theorem c7_media_url_counterexample :
    get_video_url mediaOnlySub = none
    ∧ resolve_video_url_spec mediaOnlySub = some "https://v.redd.it/abc/DASH_720.mp4"
    ∧ get_video_url mediaOnlySub ≠ resolve_video_url_spec mediaOnlySub :=
  ⟨rfl, rfl, by decide⟩

/-- C7 amended: the resolved URL is `media.reddit_video.fallback_url`
whenever the `media` attribute is present (its lookup result, possibly
null, is final — `secure_media` is not consulted); `secure_media`'s
lookup is used only when the `media` attribute is absent; when both
attributes are absent the URL is null; and the render step produces an
empty media block, not an error, for a video post with a null URL. -/
theorem c7_video_url_resolution :
    (∀ (s : Submission) (d : MediaDict), s.media = some d →
      get_video_url s = d.reddit_video.bind (fun r => r.fallback_url))
    ∧ (∀ s : Submission, s.media = none →
      get_video_url s
        = s.secure_media.bind (fun d => d.reddit_video.bind (fun r => r.fallback_url)))
    ∧ (∀ s : Submission, s.media = none → s.secure_media = none →
      get_video_url s = none)
    ∧ (∀ p : RedditPost, p.type = PostType.video → p.url = none →
      media_block p = "") := by
  refine ⟨?_, ?_, ?_, ?_⟩
  · intro s d h
    simp [get_video_url, h]
  · intro s h
    cases hsec : s.secure_media <;> simp [get_video_url, h, hsec]
  · intro s h1 h2
    simp [get_video_url, h1, h2]
  · intro p ht hu
    simp [media_block, ht, hu]

/-- C7 witness: at the counterexample submission the media attribute is
present and its null lookup is final, and a concrete null-URL video
post renders an empty media block. -/
theorem c7_video_url_resolution_witness :
    get_video_url mediaOnlySub = Option.bind none (fun (r : FallbackDict) => r.fallback_url)
    ∧ media_block videoNonePost = "" :=
  ⟨c7_video_url_resolution.1 mediaOnlySub ⟨none⟩ rfl,
   c7_video_url_resolution.2.2.2 videoNonePost rfl rfl⟩

/-- C8: when the storage put raises a ClientError, `_store_summaries`
catches it, prints its log lines, uploads nothing and returns normally
(the embedding is total), for every fragment list including the empty
one; the digest for that day is simply not stored. -/
theorem c8_store_failure_logged (date_str msg : String) (summaries : List String) :
    store_summaries date_str summaries (S3PutOutcome.clientError msg)
      = { uploaded := none, errorLogged := true }
    ∧ store_summaries date_str [] (S3PutOutcome.clientError msg)
      = { uploaded := none, errorLogged := true } :=
  ⟨rfl, rfl⟩

set_option maxRecDepth 10000 in
/-- C9: the summarization system instruction interpolates the title, a
self-text block exactly when the self-text is non-empty (both the
「投稿文、そして」 marker and the cleaned block appear iff
selftext ≠ ""), and one "{upvotes} upvotes: {text}" line per retained
comment joined by newlines; the empty comment list yields the empty
comment block, and two concrete end-to-end instantiations (empty
selftext with no comments; non-empty selftext with one comment)
evaluate to their exact expected instructions. -/
theorem c9_system_instruction (title selftext : String) (comments : List CommentRec) :
    comments_text [] = ""
    ∧ comments_text comments = String.intercalate "\n" (comments.map comment_line)
    ∧ (selftext = "" →
        raw_system_instruction title (comments_text comments) selftext
          = raw_system_instruction_no_self title (comments_text comments))
    ∧ (selftext ≠ "" →
        raw_system_instruction title (comments_text comments) selftext
          = raw_system_instruction_with_self title (comments_text comments) selftext)
    ∧ system_instruction_format title (comments_text comments) selftext
        = cleandoc (raw_system_instruction title (comments_text comments) selftext)
    ∧ system_instruction_format "タイトルX" (comments_text []) ""
        = "以下のテキストは、Redditのあるポストのタイトルと当ポストに対する主なコメントです。\nよく読んで、ユーザーの質問に答えてください。\n\nタイトル\n\x27\x27\x27\nタイトルX\n\x27\x27\x27\n\n\n\nコメント\n\x27\x27\x27\n\n\x27\x27\x27"
    ∧ system_instruction_format "記事のタイトル" (comments_text [⟨"面白い", 3⟩]) "本文です"
        = "            以下のテキストは、Redditのあるポストのタイトルと投稿文、そして当ポストに対する主なコメントです。\n            よく読んで、ユーザーの質問に答えてください。\n\n            タイトル\n            \x27\x27\x27\n            記事のタイトル\n            \x27\x27\x27\n\n            投稿文\n\x27\x27\x27\n本文です\n\x27\x27\x27\n\n            コメント\n            \x27\x27\x27\n            3 upvotes: 面白い\n            \x27\x27\x27\n            " := by
  refine ⟨rfl, rfl, ?_, ?_, rfl, by decide, by decide⟩
  · intro h
    simp [raw_system_instruction, raw_system_instruction_no_self, h]
  · intro h
    simp [raw_system_instruction, raw_system_instruction_with_self, h]

/-- C9 witness: the empty-selftext instruction concretely omits the
self-text block and the non-empty-selftext instruction concretely
includes it. -/
theorem c9_system_instruction_witness :
    raw_system_instruction "t" (comments_text []) ""
      = raw_system_instruction_no_self "t" (comments_text [])
    ∧ raw_system_instruction "t" (comments_text []) "body"
      = raw_system_instruction_with_self "t" (comments_text []) "body" :=
  ⟨(c9_system_instruction "t" "" []).2.2.1 rfl,
   (c9_system_instruction "t" "body" []).2.2.2.1 (by decide)⟩

/-- C10: every post surviving the filter has content type image, video,
text or link — gallery, poll and crosspost never reach rendering — and
the render template's media branch on any surviving post is one of the
three covered shapes: image embed, video embed, or empty. -/
theorem c10_survivor_types (hot : List Submission) (p : RedditPost)
    (hp : p ∈ retrieve_hot_posts hot) :
    (p.type = PostType.image ∨ p.type = PostType.video ∨ p.type = PostType.text
      ∨ p.type = PostType.link)
    ∧ p.type ≠ PostType.gallery ∧ p.type ≠ PostType.poll ∧ p.type ≠ PostType.crosspost
    ∧ (media_block p = "![Image](" ++ pyStrOpt p.url ++ ")"
        ∨ media_block p
            = "<video src=\"" ++ pyStrOpt p.url
              ++ "\" controls controls style=\"width: 100%; height: auto; max-height: 500px;\"></video>"
        ∨ media_block p = "") := by
  have htype : p.type ≠ PostType.gallery ∧ p.type ≠ PostType.poll
      ∧ p.type ≠ PostType.crosspost := by
    simp only [retrieve_hot_posts, List.mem_filterMap] at hp
    obtain ⟨s, -, hs⟩ := hp
    by_cases hk : keep_post s (judge_post_type s) = true
    · rw [if_pos hk] at hs
      have hrec := Option.some.inj hs
      subst hrec
      rcases ht : judge_post_type s <;> simp [keep_post, ht] at hk ⊢
    · rw [if_neg hk] at hs
      exact absurd hs (by simp)
  refine ⟨?_, htype.1, htype.2.1, htype.2.2, ?_⟩
  · rcases h : p.type <;> simp_all
  · by_cases h1 : p.type = PostType.image
    · exact Or.inl (by simp [media_block, h1])
    · by_cases h2 : p.type = PostType.video ∧ p.url ≠ none
      · exact Or.inr (Or.inl (by simp [media_block, h1, h2]))
      · exact Or.inr (Or.inr (by simp [media_block, h1, h2]))

/-- C10 witness: the concrete survivor built from `boundarySub` has one
of the four renderable types. -/
theorem c10_survivor_types_witness :
    boundaryPost.type = PostType.image ∨ boundaryPost.type = PostType.video
      ∨ boundaryPost.type = PostType.text ∨ boundaryPost.type = PostType.link := by
  have hratio : decide (boundarySub.upvote_ratio < 7/10) = false :=
    decide_eq_false (lt_irrefl ((7 : ℚ)/10))
  have hk : keep_post boundarySub (judge_post_type boundarySub) = true := by
    unfold keep_post
    rw [hratio]
    decide
  have hlist : retrieve_hot_posts [boundarySub] = [boundaryPost] := by
    unfold retrieve_hot_posts
    simp only [List.filterMap_cons, List.filterMap_nil]
    rw [hk]
    decide
  exact (c10_survivor_types [boundarySub] boundaryPost
    (by rw [hlist]; exact List.mem_singleton_self _)).1

end Nook
